import Mathlib

/-!
Verification of the FinBot front-end core: the request client with CSRF
injection and error classification (static/js/common/api.js) and the field
validation engine (static/js/common/utils.js, web main script).

The JavaScript is shallowly embedded: JS strings become Lean `String`
(character-level; the sources only manipulate ASCII), JS objects used as
string-keyed maps become functions `String -> Option String` or ordered
association lists, nullable values become `Option`, thrown exceptions become
`Except` results, and the DOM/network environment (fetched response, CSRF
token source, form fields) is passed as an explicit argument.
-/

/-! ## String utilities shared by the validators -/

/-- Embeds `value.replace(/\D/g, '')`: keep exactly the ASCII digits 0-9. -/
def stripNonDigits (s : String) : String :=
  String.mk (s.data.filter Char.isDigit)

/-- Result record `{isValid, message}` returned by the single-rule validators. -/
structure ValidationResult where
  isValid : Bool
  message : String
deriving DecidableEq

/-- Embeds the anchored regex test `/^\d{2}-?\d{7}$/.test(s)`: either nine
digits, or two digits then a dash at index 2 then seven digits. -/
def tinRegexTest (s : String) : Bool :=
  let cs := s.data
  (cs.length == 9 && cs.all Char.isDigit) ||
  (cs.length == 10 && (cs.take 2).all Char.isDigit && cs.get? 2 == some '-'
    && (cs.drop 3).all Char.isDigit)

/-- Embeds `validateTIN` from utils.js (lines 167-191). `if (!tin)` is the JS
falsiness test on a string, i.e. the empty-string test. -/
def validateTIN (tin : String) : ValidationResult :=
  if tin = "" then { isValid := false, message := "TIN/EIN is required" }
  else
    let cleanTIN := stripNonDigits tin
    if cleanTIN.length ≠ 9 then
      { isValid := false, message := "TIN/EIN must be 9 digits" }
    else if !tinRegexTest tin then
      { isValid := false
        message := "Please enter a valid TIN/EIN format (XX-XXXXXXX or XXXXXXXXX)" }
    else { isValid := true, message := "" }

/-- Embeds `validateRoutingNumber` from utils.js (lines 226-241): strip
non-digits, require exactly nine remaining; no checksum is computed. -/
def validateRoutingNumber (routingNumber : String) : ValidationResult :=
  if routingNumber = "" then
    { isValid := false, message := "Routing number is required" }
  else
    let cleanRouting := stripNonDigits routingNumber
    if cleanRouting.length ≠ 9 then
      { isValid := false, message := "Routing number must be exactly 9 digits" }
    else { isValid := true, message := "" }

/-! ## Password strength (utils.js lines 122-161) -/

/-- Result record `{isValid, score, feedback}` of `validatePassword`. -/
structure PasswordResult where
  isValid : Bool
  score : Nat
  feedback : List String
deriving DecidableEq

/-- Embeds `/[a-z]/.test(p)`. -/
def hasLowercase (p : String) : Bool :=
  p.data.any (fun c => decide ('a' ≤ c) && decide (c ≤ 'z'))

/-- Embeds `/[A-Z]/.test(p)`. -/
def hasUppercase (p : String) : Bool :=
  p.data.any (fun c => decide ('A' ≤ c) && decide (c ≤ 'Z'))

/-- Embeds `/\d/.test(p)`. -/
def hasDigitChar (p : String) : Bool :=
  p.data.any Char.isDigit

/-- The fixed punctuation set of the special-character rule; the braces of the
JS character class are written as their codes. -/
def specialChars : List Char :=
  ['!', '@', '#', '$', '%', '^', '&', '*', '(', ')', ',', '.', '?', '"', ':',
   '\x7b', '\x7d', '|', '<', '>']

/-- Embeds the special-character regex test of `validatePassword`. -/
def hasSpecialChar (p : String) : Bool :=
  p.data.any (fun c => specialChars.contains c)

/-- One scoring step of `validatePassword`: a passed check adds one point, a
failed check appends its feedback message. -/
def pwStep (acc : Nat × List String) (passed : Bool) (msg : String) : Nat × List String :=
  if passed then (acc.1 + 1, acc.2) else (acc.1, acc.2 ++ [msg])

def pwMsgLength : String := "Password must be at least 8 characters long"
def pwMsgLower : String := "Password must contain at least one lowercase letter"
def pwMsgUpper : String := "Password must contain at least one uppercase letter"
def pwMsgDigit : String := "Password must contain at least one number"
def pwMsgSpecial : String := "Password should contain at least one special character"

/-- The five sequential score/feedback updates of `validatePassword`, applied
to the outcomes of the five checks in source order. -/
def pwRun (b1 b2 b3 b4 b5 : Bool) : Nat × List String :=
  pwStep (pwStep (pwStep (pwStep (pwStep (0, []) b1 pwMsgLength)
    b2 pwMsgLower) b3 pwMsgUpper) b4 pwMsgDigit) b5 pwMsgSpecial

/-- Embeds `validatePassword` from utils.js: five checks in source order
(length at least 8, lowercase, uppercase, digit, special character), score is
the number of passed checks, feedback collects the messages of failed checks,
`isValid` iff the final score is at least 4. -/
def validatePassword (password : String) : PasswordResult :=
  let r := pwRun (decide (8 ≤ password.length)) (hasLowercase password)
    (hasUppercase password) (hasDigitChar password) (hasSpecialChar password)
  { isValid := decide (4 ≤ r.1), score := r.1, feedback := r.2 }

/-- The outcomes of the five password checks, in the spec's fixed rule order. -/
def passwordChecks (p : String) : List Bool :=
  [decide (8 ≤ p.length), hasLowercase p, hasUppercase p, hasDigitChar p,
   hasSpecialChar p]

/-- The five feedback messages, in the spec's fixed rule order. -/
def passwordMessages : List String :=
  [pwMsgLength, pwMsgLower, pwMsgUpper, pwMsgDigit, pwMsgSpecial]

/-- Follows the spec's words: the score is the number of satisfied rules among
the five checks. -/
def specPasswordScore (p : String) : Nat :=
  (passwordChecks p).count true

/-- Follows the spec's words: feedback holds exactly one message per failed
rule, in the fixed rule order. -/
def specPasswordFeedback (p : String) : List String :=
  ((passwordChecks p).zip passwordMessages).filterMap
    (fun x => cond x.1 none (some x.2))

/-! ## Formatters (utils.js lines 246-263) -/

/-- Embeds `formatTIN`: when exactly nine digits remain after stripping,
return the first two, a dash, and the last seven; otherwise the input. -/
def formatTIN (tin : String) : String :=
  if (stripNonDigits tin).length = 9 then
    String.mk ((stripNonDigits tin).data.take 2) ++ "-" ++
      String.mk ((stripNonDigits tin).data.drop 2)
  else tin

/-- Embeds `formatRoutingNumber`: when exactly nine digits remain after
stripping, group them three by three with spaces; otherwise the input. -/
def formatRoutingNumber (routingNumber : String) : String :=
  if (stripNonDigits routingNumber).length = 9 then
    String.mk ((stripNonDigits routingNumber).data.take 3) ++ " " ++
      String.mk (((stripNonDigits routingNumber).data.drop 3).take 3) ++ " " ++
      String.mk ((stripNonDigits routingNumber).data.drop 6)
  else routingNumber

/-! ## Request client headers (api.js lines 6-60, 143-156)

JS objects used as header maps are embedded as partial maps
`String -> Option String`; the object spread `\x7b...a, ...b\x7d` is the
right-biased merge of the two maps. -/

def HeaderMap : Type := String → Option String

def hempty : HeaderMap := fun _ => none

/-- Embeds `m[k] = v` on a JS object. -/
def hset (m : HeaderMap) (k v : String) : HeaderMap :=
  fun q => if q = k then some v else m q

/-- Embeds `delete m[k]` on a JS object. -/
def hdel (m : HeaderMap) (k : String) : HeaderMap :=
  fun q => if q = k then none else m q

/-- Embeds the object spread merge: a key of `ext` wins over `base`. -/
def hmerge (base ext : HeaderMap) : HeaderMap :=
  fun q =>
    match ext q with
    | some v => some v
    | none => base q

/-- The client constructor's `this.defaultHeaders`. -/
def defaultHeaders : HeaderMap :=
  hset hempty ("Content-Type") ("application/json")

/-- Embeds the guard `options.method && options.method !== 'GET'`; an absent
or empty method string is falsy. -/
def methodTruthyNonGet : Option String → Bool
  | some m => m != "" && m != "GET"
  | none => false

/-- Header computation of `request(endpoint, options)` (api.js lines 42-54):
merge the client defaults with the caller headers (caller wins), then for a
truthy non-GET method write the discovered CSRF token — `getCSRFToken()`
returning the meta-tag content, else the `csrf_token` cookie, else null, is
passed in as `csrfToken` — under `X-CSRF-Token` when it is truthy. -/
def requestHeaders (optMethod : Option String) (optHeaders : HeaderMap)
    (csrfToken : Option String) : HeaderMap :=
  let headers := hmerge defaultHeaders optHeaders
  if methodTruthyNonGet optMethod then
    match csrfToken with
    | some tok => if tok != "" then hset headers ("X-CSRF-Token") tok else headers
    | none => headers
  else headers

/-- The headers `upload(endpoint, formData)` builds before delegating: a copy
of the defaults with `Content-Type` deleted (api.js lines 146-149). -/
def uploadHeaders : HeaderMap :=
  hdel defaultHeaders ("Content-Type")

/-- The final header map of the request issued by `upload`: `upload` calls
`request` with method POST and its Content-Type-free header copy, and
`request` re-merges the client defaults underneath. -/
def uploadRequestHeaders (csrfToken : Option String) : HeaderMap :=
  requestHeaders (some ("POST")) uploadHeaders csrfToken

/-- JS truthiness of an optional string: present and non-empty. -/
def strTruthy : Option String → Bool
  | some s => s != ""
  | none => false

/-! ## Response handling of request() (api.js lines 62-99) -/

/-- A decoded JS response body. `JSON.parse` can also yield numbers, booleans
and arrays; for the member access `data.message` those behave exactly like a
string (no `message` property, no throw), so `jstr` stands for all of them,
while `jobj` records an object's optional `message` field — the only part of
an object `request` inspects. -/
inductive JsonValue
  | jnull
  | jstr (s : String)
  | jobj (message : Option String)
deriving DecidableEq

/-- The TypeError text produced by reading a property of null; its exact
wording is engine-dependent and irrelevant to the theorems below. -/
def nullReadMessage : String := "Cannot read properties of null"

/-- JS member access `data.message`: throws a TypeError on null, yields the
field on an object, is undefined on anything else. -/
def getMessageField : JsonValue → Except String (Option String)
  | .jnull => .error nullReadMessage
  | .jstr _ => .ok none
  | .jobj m => .ok m

deriving instance DecidableEq for Except

/-- The state of a fetched `Response` as far as `request` inspects it:
`jsonResult` is what `response.json()` would do (value or parse-error
message), `textBody` what `response.text()` returns. -/
structure JsResponse where
  ok : Bool
  status : Nat
  statusText : String
  contentType : Option String
  jsonResult : Except String JsonValue
  textBody : String
deriving DecidableEq

/-- Embeds `hay.includes(needle)` on strings. -/
def strIncludes (hay needle : String) : Bool :=
  (List.range (hay.data.length + 1)).any
    (fun i => (hay.data.drop i).take needle.data.length == needle.data)

/-- Embeds `contentType && contentType.includes('application/json')`; a null
content-type header is falsy. -/
def contentTypeIsJson (ct : Option String) : Bool :=
  match ct with
  | some s => strIncludes s ("application/json")
  | none => false

/-- Body decoding of `request` (api.js lines 66-73): JSON media type decodes
via `response.json()`, anything else via `response.text()`. -/
def decodeBody (r : JsResponse) : Except String JsonValue :=
  if contentTypeIsJson r.contentType then r.jsonResult
  else .ok (.jstr r.textBody)

/-- Outcome of one `request` call: `success` is the returned
`\x7bdata, status, headers\x7d` record, `failure` the thrown
`APIError(message, status, data)`. -/
inductive RequestOutcome
  | success (data : JsonValue) (status : Nat)
  | failure (message : String) (status : Nat) (payload : Option JsonValue)
deriving DecidableEq

/-- JS `s || fallback` on strings: the empty string is falsy. -/
def jsStrOr (s fallback : String) : String :=
  if s = "" then fallback else s

/-- JS `m || fallback` where `m` is a possibly undefined string field. -/
def jsOptOr (m : Option String) (fallback : String) : String :=
  match m with
  | some s => jsStrOr s fallback
  | none => fallback

/-- The catch block of `request` for a non-APIError exception (api.js lines
88-98): wrap as `APIError(error.message || 'Network error occurred', 0, null)`. -/
def catchToAPIError (emsg : String) : RequestOutcome :=
  .failure (jsStrOr emsg ("Network error occurred")) 0 none

/-- The generic failure message template of api.js line 77. -/
def httpGenericMessage (status : Nat) (statusText : String) : String :=
  "HTTP " ++ toString status ++ ": " ++ statusText

/-- Embeds the body of `request`'s try block applied to a fetched response
(api.js lines 63-87), with the catch block of lines 88-98 around it: a parse
throw or the TypeError from `data.message` on a null body is wrapped by the
catch; a thrown APIError passes the `instanceof` test and escapes unchanged. -/
def handleResponse (r : JsResponse) : RequestOutcome :=
  match decodeBody r with
  | .error emsg => catchToAPIError emsg
  | .ok data =>
    if !r.ok then
      match getMessageField data with
      | .error emsg => catchToAPIError emsg
      | .ok mfield =>
        .failure (jsOptOr mfield (httpGenericMessage r.status r.statusText))
          r.status (some data)
    else .success data r.status

/-- What the awaited `fetch` did: delivered a response, or rejected with an
error whose `.message` is recorded. -/
inductive FetchResult
  | fetched (r : JsResponse)
  | netError (emsg : String)
deriving DecidableEq

/-- The complete outcome of `request` as a function of the transport's
behaviour: a rejected fetch lands in the catch block, a delivered response is
processed by the try body. -/
def request (fr : FetchResult) : RequestOutcome :=
  match fr with
  | .fetched r => handleResponse r
  | .netError emsg => catchToAPIError emsg

/-- Only the `message` field of an object body is readable without a throw;
helper used to state what a successful `data.message` access yields. -/
def messageFieldOf : JsonValue → Option String
  | .jnull => none
  | .jstr _ => none
  | .jobj m => m

/-! ## Error taxonomy (api.js lines 195-211)

The `APIError` methods read only `this.status`, so they are embedded as pure
functions of the status code. -/

/-- Embeds `isAuthError()`: status 401 or 403. -/
def isAuthError (status : Int) : Bool :=
  status == 401 || status == 403

/-- Embeds `isValidationError()`: status 422 or 400. -/
def isValidationError (status : Int) : Bool :=
  status == 422 || status == 400

/-- Embeds `isServerError()`: status at least 500. -/
def isServerError (status : Int) : Bool :=
  decide (500 ≤ status)

/-! ## Form validation (utils.js lines 114-117 and 436-483, web main script
lines 111-144) -/

/-- A character admitted by the regex class excluding whitespace and the at
sign. -/
def emailAtomChar (c : Char) : Bool :=
  !c.isWhitespace && c != '@'

/-- Match of the domain part against the two dot-separated non-empty
segments of the email regex: some dot splits the characters into a non-empty
admissible prefix and a non-empty admissible suffix. -/
def emailDomainTest (cs : List Char) : Bool :=
  (List.range cs.length).any (fun j =>
    cs.get? j == some '.' && decide (0 < j) && decide (j + 1 < cs.length) &&
    (cs.take j).all emailAtomChar && (cs.drop (j + 1)).all emailAtomChar)

/-- Embeds the anchored regex test of `isValidEmail` (utils.js lines 114-117):
the string splits at an at sign into a non-empty admissible local part and a
domain matching `emailDomainTest`. -/
def isValidEmail (email : String) : Bool :=
  (List.range email.data.length).any (fun i =>
    email.data.get? i == some '@' && decide (0 < i) &&
    (email.data.take i).all emailAtomChar &&
    emailDomainTest (email.data.drop (i + 1)))

/-- One form control as `validateForm` inspects it: its DOM attributes plus
the value `formData.get(field.name)` yields for it (`none` embeds null). The
DOM reports `minLength`/`maxLength` as -1 when the attribute is absent. -/
structure FormField where
  name : String
  type : String
  required : Bool
  minLength : Int
  maxLength : Int
  value : Option String
deriving DecidableEq

/-- Embeds `s.trim()`: drop whitespace characters from both ends. -/
def jsTrim (s : String) : String :=
  String.mk
    (((s.data.dropWhile Char.isWhitespace).reverse.dropWhile
      Char.isWhitespace).reverse)

/-- Embeds the required-rule guard `!value || value.trim() === ''`. -/
def requiredViolated : Option String → Bool
  | none => true
  | some s => jsTrim s == ""

/-- The per-field error list `fieldErrors` built by `validateForm`'s forEach
body (utils.js lines 443-477): required, email, password, minimum length and
maximum length rules in that order, each contributing independently. -/
def fieldErrors (f : FormField) : List String :=
  let v := f.value.getD ""
  (if f.required && requiredViolated f.value then [f.name ++ " is required"] else []) ++
  (if f.type == "email" && strTruthy f.value && !isValidEmail v then
    ["Please enter a valid email address"] else []) ++
  (if f.type == "password" && strTruthy f.value && !(validatePassword v).isValid then
    (validatePassword v).feedback else []) ++
  (if f.minLength != 0 && decide (0 < f.minLength) && strTruthy f.value &&
      decide ((v.length : Int) < f.minLength) then
    [f.name ++ " must be at least " ++ toString f.minLength ++ " characters"] else []) ++
  (if f.maxLength != 0 && decide (0 < f.maxLength) && strTruthy f.value &&
      decide (f.maxLength < (v.length : Int)) then
    [f.name ++ " must be no more than " ++ toString f.maxLength ++ " characters"] else [])

/-- Embeds `errors[field.name] = fieldErrors` on the insertion-ordered JS
object: replace in place when the key exists, else append. -/
def errSet (m : List (String × List String)) (k : String) (v : List String) :
    List (String × List String) :=
  if m.any (fun p => p.1 == k) then
    m.map (fun p => if p.1 == k then (k, v) else p)
  else m ++ [(k, v)]

/-- The `\x7bisValid, errors\x7d` record returned by `validateForm`. -/
structure FormReport where
  isValid : Bool
  errors : List (String × List String)
deriving DecidableEq

/-- Embeds `validateForm` (utils.js lines 436-483): fold the fields in DOM
order, recording each non-empty per-field error list under the field's name;
`isValid` iff `Object.keys(errors)` is empty. -/
def validateForm (fields : List FormField) : FormReport :=
  let errors := fields.foldl (fun acc f =>
    let fe := fieldErrors f
    if 0 < fe.length then errSet acc f.name fe else acc) []
  { isValid := errors.length == 0, errors := errors }

/-- The two ways `handleAuthSubmit` can leave its validation gate. -/
inductive SubmitStep
  | abortWithErrors (errors : List (String × List String))
  | submitToNetwork
deriving DecidableEq

/-- Embeds `handleAuthSubmit` up to the network-call decision (web main
script lines 111-127): run `validateForm`; when invalid, display the field
errors and return without calling `submitForm`; otherwise proceed to the
network submission (whose response handling is beyond this gate). -/
def handleAuthSubmit (fields : List FormField) : SubmitStep :=
  let validation := validateForm fields
  if !validation.isValid then .abortWithErrors validation.errors
  else .submitToNetwork

/-! ## Helper lemmas -/

/-- Pointwise value of the header map `request` sends: the discovered CSRF
token under its fixed name when the method is truthy non-GET and the token is
truthy, otherwise the caller-over-defaults merge. -/
lemma requestHeaders_apply (optMethod : Option String) (oh : HeaderMap)
    (csrf : Option String) (k : String) :
    requestHeaders optMethod oh csrf k =
      if methodTruthyNonGet optMethod && strTruthy csrf && k == "X-CSRF-Token" then
        csrf
      else hmerge defaultHeaders oh k := by
  unfold requestHeaders
  cases hm : methodTruthyNonGet optMethod with
  | false => simp [hm]
  | true =>
    cases csrf with
    | none => simp [hm, strTruthy]
    | some tok =>
      by_cases ht : tok = ""
      · subst ht; simp [hm, strTruthy]
      · have htb : (tok != "") = true := by simp [ht]
        simp only [hm, htb, strTruthy, Bool.true_and, if_true]
        by_cases hk : k = "X-CSRF-Token"
        · subst hk; simp [hset]
        · have hkb : (k == "X-CSRF-Token") = false := by simp [hk]
          simp [hset, hk, hkb]

/-! ## Theorems for the claims -/

/-- C1: the claim says the headers of the request issued by
`upload(endpoint, formData)` never contain the client's default Content-Type
header. The code does delete the key from its local copy, but `request`
re-merges `this.defaultHeaders` underneath the caller headers, and an absent
key does not override, so the default `Content-Type: application/json` is
sent after all, contradicting the source's own comment. This theorem
evaluates the embedded code: for every CSRF-token state the sent header map
still maps Content-Type to the default value. -/
theorem C1_upload_sends_default_content_type :
    ∀ csrfToken : Option String,
      uploadRequestHeaders csrfToken ("Content-Type") = some ("application/json") := by
  intro csrf
  unfold uploadRequestHeaders
  rw [requestHeaders_apply]
  rw [(by decide : (("Content-Type" : String) == ("X-CSRF-Token")) = false)]
  simp only [Bool.and_false, Bool.false_eq_true, if_false]
  rfl

/-- C2 (amended): for every request the header sent under a name is the
caller-supplied value when present, else the client default — except the
fixed CSRF header name on a truthy non-GET method with a discoverable truthy
token, where the discovered token overwrites even a caller-supplied value,
because the CSRF injection runs after the merge. -/
theorem C2_header_merge_caller_wins_except_csrf :
    ∀ (optMethod : Option String) (optHeaders : HeaderMap)
      (csrfToken : Option String) (k : String),
      requestHeaders optMethod optHeaders csrfToken k =
        if methodTruthyNonGet optMethod && strTruthy csrfToken && k == "X-CSRF-Token" then
          csrfToken
        else
          match optHeaders k with
          | some v => some v
          | none => defaultHeaders k := by
  intro m oh csrf k
  rw [requestHeaders_apply]
  rfl

/-- C2 counterexample: a POST whose caller supplies its own `X-CSRF-Token`
header while the token source holds a token does not send the caller value —
the discovered token wins, so the claim's universal caller-wins statement is
false at this input. -/
theorem C2_counterexample_csrf_overwrites_caller :
    requestHeaders (some ("POST")) (hset hempty ("X-CSRF-Token") ("caller-token"))
        (some ("meta-token")) ("X-CSRF-Token") = some ("meta-token") ∧
      some ("meta-token") ≠ some ("caller-token" : String) := by
  exact ⟨by decide, by decide⟩

/-- C5: the three `APIError` predicates hold exactly on their status sets
(401/403, 400/422, at least 500), and are pairwise mutually exclusive; being
functions of the status code alone they are pure and idempotent by
construction. -/
theorem C5_error_taxonomy :
    ∀ status : Int,
      (isAuthError status = true ↔ status = 401 ∨ status = 403) ∧
      (isValidationError status = true ↔ status = 400 ∨ status = 422) ∧
      (isServerError status = true ↔ 500 ≤ status) ∧
      ¬(isAuthError status = true ∧ isValidationError status = true) ∧
      ¬(isAuthError status = true ∧ isServerError status = true) ∧
      ¬(isValidationError status = true ∧ isServerError status = true) := by
  intro status
  simp only [isAuthError, isValidationError, isServerError, Bool.or_eq_true,
    beq_iff_eq, decide_eq_true_eq]
  refine ⟨trivial, by omega, trivial, ?_, ?_, ?_⟩ <;> omega

/-- C6: for every non-empty string the TIN validator accepts exactly when the
stripped digits number nine and the original string matches the exact
two-digits optional-dash seven-digits pattern; the two spec examples hold. -/
theorem C6_validateTIN_pattern :
    (∀ s : String, s ≠ "" →
      ((validateTIN s).isValid = true ↔
        (stripNonDigits s).length = 9 ∧ tinRegexTest s = true)) ∧
    (validateTIN ("12-3456789")).isValid = true ∧
    (validateTIN ("123-456-789")).isValid = false := by
  refine ⟨?_, by decide, by decide⟩
  intro s hs
  simp only [validateTIN, if_neg hs]
  by_cases h9 : (stripNonDigits s).length = 9
  · by_cases hr : tinRegexTest s
    · simp [h9, hr]
    · simp [h9, hr]
  · simp [h9]

/-- C6 witness: the general statement applied at the concrete input
`12-3456789`. -/
theorem C6_witness :
    ("12-3456789" : String) ≠ "" ∧
    ((validateTIN ("12-3456789")).isValid = true ↔
      (stripNonDigits ("12-3456789")).length = 9 ∧
        tinRegexTest ("12-3456789") = true) :=
  ⟨by decide, C6_validateTIN_pattern.1 ("12-3456789") (by decide)⟩

/-- C7: for every non-empty string the routing-number validator accepts
exactly when the stripped digits number nine — no checksum weighting is
applied — and in particular the all-ones string passes. -/
theorem C7_routing_no_checksum :
    (∀ s : String, s ≠ "" →
      ((validateRoutingNumber s).isValid = true ↔ (stripNonDigits s).length = 9)) ∧
    (validateRoutingNumber ("111111111")).isValid = true := by
  refine ⟨?_, by decide⟩
  intro s hs
  simp only [validateRoutingNumber, if_neg hs]
  by_cases h9 : (stripNonDigits s).length = 9
  · simp [h9]
  · simp [h9]

/-- C7 witness: the general statement applied at the concrete input
`111111111`, the string that would fail the standard ABA checksum. -/
theorem C7_witness :
    ("111111111" : String) ≠ "" ∧
    ((validateRoutingNumber ("111111111")).isValid = true ↔
      (stripNonDigits ("111111111")).length = 9) :=
  ⟨by decide, C7_routing_no_checksum.1 ("111111111") (by decide)⟩

/-- A non-success JSON response whose body decodes to null; used to refute
the original C3 claim. -/
def nullBodyResponse : JsResponse :=
  { ok := false, status := 500, statusText := "Internal Server Error",
    contentType := some ("application/json"), jsonResult := .ok .jnull,
    textBody := "" }

/-- C3 counterexample: on a 500 response whose JSON body decodes to null, the
member access `data.message` throws, the catch wraps the TypeError, and the
produced failure carries status 0 and payload null — not the response's
status 500 with the decoded body and the generic message, as the claim
demands for every decodable body including null. -/
theorem C3_counterexample_null_body :
    nullBodyResponse.ok = false ∧
    decodeBody nullBodyResponse = .ok JsonValue.jnull ∧
    nullBodyResponse.status = 500 ∧
    request (.fetched nullBodyResponse) = .failure nullReadMessage 0 none ∧
    RequestOutcome.failure nullReadMessage 0 none ≠
      .failure (httpGenericMessage 500 ("Internal Server Error")) 500
        (some .jnull) := by
  refine ⟨rfl, by decide, rfl, by decide, by decide⟩

/-- C3 (amended): for every non-success response whose body decodes to a
non-null value, `request` fails with the response's status, the decoded body
as payload, and a message equal to the body's `message` field when that field
is present and non-empty, else the generic HTTP string; a body decoding to
null is instead remapped by the catch block to a failure with status 0 and
payload null. -/
theorem C3_failure_classification_amended :
    ∀ (r : JsResponse) (data : JsonValue),
      r.ok = false → decodeBody r = .ok data → data ≠ .jnull →
      request (.fetched r) =
        .failure (jsOptOr (messageFieldOf data)
            (httpGenericMessage r.status r.statusText))
          r.status (some data) := by
  intro r data hok hdec hnn
  show handleResponse r = _
  unfold handleResponse
  rw [hdec, hok]
  cases data with
  | jnull => exact absurd rfl hnn
  | jstr s => rfl
  | jobj m => rfl

/-- A 422 response carrying a structured error body with a message field. -/
def validationErrorResponse : JsResponse :=
  { ok := false, status := 422, statusText := "Unprocessable Entity",
    contentType := some ("application/json"),
    jsonResult := .ok (.jobj (some ("Invalid input"))), textBody := "" }

/-- C3 witness: the amended statement applied to a concrete 422 response with
a message-bearing JSON body. -/
theorem C3_witness :
    request (.fetched validationErrorResponse) =
      .failure ("Invalid input") 422 (some (.jobj (some ("Invalid input")))) := by
  have h := C3_failure_classification_amended validationErrorResponse
    (.jobj (some ("Invalid input"))) rfl (by decide) (by decide)
  exact h.trans (by decide)

/-- C4 counterexample: a transport error whose own message is the empty
string produces a failure carrying the fallback text, not the underlying
error's (empty) message, so the claim's universal message clause is false at
this input. -/
theorem C4_counterexample_empty_message :
    request (.netError ("")) = .failure ("Network error occurred") 0 none ∧
    ("Network error occurred" : String) ≠ "" := by
  exact ⟨rfl, by decide⟩

/-- C4 (amended): every transport error and every body-decoding error inside
`request` surfaces as a failure with status 0 and payload null whose message
is the underlying error's message when non-empty, else the fallback text
`Network error occurred`; no raw exception escapes and none is swallowed. -/
theorem C4_transport_and_decode_errors_amended :
    ∀ (emsg : String) (r : JsResponse) (perr : String),
      request (.netError emsg) =
        .failure (jsStrOr emsg ("Network error occurred")) 0 none ∧
      (decodeBody r = .error perr →
        request (.fetched r) =
          .failure (jsStrOr perr ("Network error occurred")) 0 none) := by
  intro emsg r perr
  refine ⟨rfl, ?_⟩
  intro h
  show handleResponse r = _
  unfold handleResponse
  rw [h]
  rfl

/-- A JSON-typed 200 response whose body fails to parse. -/
def parseFailResponse : JsResponse :=
  { ok := true, status := 200, statusText := "OK",
    contentType := some ("application/json"),
    jsonResult := .error ("Unexpected end of JSON input"), textBody := "" }

/-- C4 witness: the amended statement applied to a concrete rejected fetch
and a concrete parse failure. -/
theorem C4_witness :
    request (.netError ("connection refused")) =
      .failure ("connection refused") 0 none ∧
    decodeBody parseFailResponse = .error ("Unexpected end of JSON input") ∧
    request (.fetched parseFailResponse) =
      .failure ("Unexpected end of JSON input") 0 none := by
  have h := C4_transport_and_decode_errors_amended ("connection refused")
    parseFailResponse ("Unexpected end of JSON input")
  exact ⟨h.1.trans (by decide), by decide, (h.2 (by decide)).trans (by decide)⟩

/-- The five sequential scoring steps realize the spec-side count and
feedback characterization, for every combination of check outcomes. -/
lemma pwRun_spec (b1 b2 b3 b4 b5 : Bool) :
    (pwRun b1 b2 b3 b4 b5).1 = [b1, b2, b3, b4, b5].count true ∧
    (pwRun b1 b2 b3 b4 b5).2 =
      ([b1, b2, b3, b4, b5].zip passwordMessages).filterMap
        (fun x => cond x.1 none (some x.2)) ∧
    (pwRun b1 b2 b3 b4 b5).2.length = 5 - (pwRun b1 b2 b3 b4 b5).1 := by
  revert b1 b2 b3 b4 b5
  decide

/-- C8: for every password the score is the number of satisfied rules among
the five checks (hence at most 5), validity holds exactly when the score is
at least 4, and the feedback lists exactly one message per failed rule in the
fixed rule order (hence has length five minus the score); the two spec
examples hold. -/
theorem C8_password_scoring :
    (∀ p : String,
      (validatePassword p).score = specPasswordScore p ∧
      (validatePassword p).score ≤ 5 ∧
      ((validatePassword p).isValid = true ↔ 4 ≤ (validatePassword p).score) ∧
      (validatePassword p).feedback = specPasswordFeedback p ∧
      (validatePassword p).feedback.length = 5 - (validatePassword p).score) ∧
    (validatePassword ("abc")).isValid = false ∧
    4 ≤ (validatePassword ("abc")).feedback.length ∧
    (validatePassword ("Abcd123!")).isValid = true ∧
    (validatePassword ("Abcd123!")).score = 5 := by
  refine ⟨?_, by decide, by decide, by decide, by decide⟩
  intro p
  have h := pwRun_spec (decide (8 ≤ p.length)) (hasLowercase p) (hasUppercase p)
    (hasDigitChar p) (hasSpecialChar p)
  simp only [validatePassword, specPasswordScore, specPasswordFeedback,
    passwordChecks]
  refine ⟨h.1, ?_, ?_, h.2.1, h.2.2⟩
  · rw [h.1]
    exact le_trans (List.count_le_length _ _) (by simp)
  · simp only [decide_eq_true_eq]

/-- C9: whenever `validateForm` reports the form invalid, the submit handler
displays exactly the computed field errors and stops before any network
submission; and a two-field form with one error-producing field and one
error-free field yields an error mapping with exactly that one field's key and
never reaches the network call. -/
theorem C9_invalid_form_blocks_submit :
    (∀ fields : List FormField, (validateForm fields).isValid = false →
      handleAuthSubmit fields = .abortWithErrors (validateForm fields).errors) ∧
    (∀ f1 f2 : FormField, fieldErrors f1 ≠ [] → fieldErrors f2 = [] →
      (validateForm [f1, f2]).errors = [(f1.name, fieldErrors f1)] ∧
      handleAuthSubmit [f1, f2] ≠ .submitToNetwork) := by
  constructor
  · intro fields h
    simp [handleAuthSubmit, h]
  · intro f1 f2 h1 h2
    have hlen1 : 0 < (fieldErrors f1).length := List.length_pos.mpr h1
    have herr : (validateForm [f1, f2]).errors = [(f1.name, fieldErrors f1)] := by
      simp only [validateForm, List.foldl]
      rw [if_pos hlen1, if_neg (by simp [h2])]
      simp [errSet]
    refine ⟨herr, ?_⟩
    have hv : (validateForm [f1, f2]).isValid = false := by
      have hdef : (validateForm [f1, f2]).isValid =
          ((validateForm [f1, f2]).errors.length == 0) := rfl
      rw [hdef, herr]
      rfl
    simp [handleAuthSubmit, hv]

/-- A required email field whose submitted value is empty: its error list is
exactly the required-rule message. -/
def invalidRequiredField : FormField :=
  { name := "email", type := "email", required := true, minLength := -1,
    maxLength := -1, value := some ("") }

/-- An optional text field with an unremarkable value: no errors. -/
def validTextField : FormField :=
  { name := "nickname", type := "text", required := false, minLength := -1,
    maxLength := -1, value := some ("bob") }

/-- C9 witness: the submit-gate statement applied to a concrete form holding
one invalid required field and one valid field. -/
theorem C9_witness :
    fieldErrors invalidRequiredField ≠ [] ∧
    fieldErrors validTextField = [] ∧
    (validateForm [invalidRequiredField, validTextField]).errors =
      [(("email" : String), [("email is required" : String)])] ∧
    handleAuthSubmit [invalidRequiredField, validTextField] ≠ .submitToNetwork := by
  have h := C9_invalid_form_blocks_submit.2 invalidRequiredField validTextField
    (by decide) (by decide)
  exact ⟨by decide, by decide, h.1.trans (by decide), h.2⟩

/-- The characters of a stripped string are all digits. -/
lemma mem_strip_isDigit (s : String) :
    ∀ c ∈ (stripNonDigits s).data, Char.isDigit c = true := by
  intro c hc
  have : c ∈ s.data.filter Char.isDigit := hc
  exact (List.mem_filter.mp this).2

/-- Filtering digits out of a prefix of a stripped string changes nothing. -/
lemma filter_strip_take (s : String) (n : Nat) :
    ((stripNonDigits s).data.take n).filter Char.isDigit =
      (stripNonDigits s).data.take n :=
  List.filter_eq_self.mpr
    (fun a ha => mem_strip_isDigit s a (List.take_subset n _ ha))

/-- Filtering digits out of a suffix of a stripped string changes nothing. -/
lemma filter_strip_drop (s : String) (n : Nat) :
    ((stripNonDigits s).data.drop n).filter Char.isDigit =
      (stripNonDigits s).data.drop n :=
  List.filter_eq_self.mpr
    (fun a ha => mem_strip_isDigit s a (List.drop_subset n _ ha))

/-- Filtering digits out of an inner slice of a stripped string changes
nothing. -/
lemma filter_strip_drop_take (s : String) (n m : Nat) :
    (((stripNonDigits s).data.drop n).take m).filter Char.isDigit =
      ((stripNonDigits s).data.drop n).take m :=
  List.filter_eq_self.mpr
    (fun a ha =>
      mem_strip_isDigit s a (List.drop_subset n _ (List.take_subset m _ ha)))

/-- The dash is not a digit. -/
lemma filter_dash : List.filter Char.isDigit ['-'] = [] := rfl

/-- The space is not a digit. -/
lemma filter_space : List.filter Char.isDigit [' '] = [] := rfl

/-- Two drops of three characters make a drop of six. -/
lemma drop_three_three (l : List Char) : (l.drop 3).drop 3 = l.drop 6 := by
  rw [List.drop_drop]

/-- Stripping the dashed TIN format recovers the original digit string. -/
lemma strip_formatTIN (s : String) (h : (stripNonDigits s).length = 9) :
    stripNonDigits (formatTIN s) = stripNonDigits s := by
  unfold formatTIN
  rw [if_pos h]
  show String.mk
      ((((stripNonDigits s).data.take 2 ++ ['-']) ++
        (stripNonDigits s).data.drop 2).filter Char.isDigit) =
    String.mk ((stripNonDigits s).data)
  refine congrArg String.mk ?_
  rw [List.filter_append, List.filter_append, filter_strip_take,
    filter_strip_drop]
  rw [filter_dash, List.append_nil, List.take_append_drop]

/-- Stripping the space-grouped routing format recovers the original digit
string. -/
lemma strip_formatRouting (s : String) (h : (stripNonDigits s).length = 9) :
    stripNonDigits (formatRoutingNumber s) = stripNonDigits s := by
  unfold formatRoutingNumber
  rw [if_pos h]
  show String.mk
      ((((((stripNonDigits s).data.take 3 ++ [' ']) ++
          ((stripNonDigits s).data.drop 3).take 3) ++ [' ']) ++
        (stripNonDigits s).data.drop 6).filter Char.isDigit) =
    String.mk ((stripNonDigits s).data)
  refine congrArg String.mk ?_
  rw [List.filter_append, List.filter_append, List.filter_append,
    List.filter_append, filter_strip_take, filter_strip_drop,
    filter_strip_drop_take]
  rw [filter_space, List.append_nil, List.append_nil]
  rw [List.append_assoc, ← drop_three_three]
  rw [List.take_append_drop, List.take_append_drop]

/-- The then-branch of `formatTIN`, as an equation. -/
lemma formatTIN_of_len9 (t : String) (h : (stripNonDigits t).length = 9) :
    formatTIN t = String.mk ((stripNonDigits t).data.take 2) ++ "-" ++
      String.mk ((stripNonDigits t).data.drop 2) := by
  unfold formatTIN
  rw [if_pos h]

/-- The then-branch of `formatRoutingNumber`, as an equation. -/
lemma formatRouting_of_len9 (t : String) (h : (stripNonDigits t).length = 9) :
    formatRoutingNumber t =
      String.mk ((stripNonDigits t).data.take 3) ++ " " ++
        String.mk (((stripNonDigits t).data.drop 3).take 3) ++ " " ++
        String.mk ((stripNonDigits t).data.drop 6) := by
  unfold formatRoutingNumber
  rw [if_pos h]

/-- `formatTIN` applied to its own output changes nothing. -/
lemma formatTIN_idem (s : String) : formatTIN (formatTIN s) = formatTIN s := by
  by_cases h : (stripNonDigits s).length = 9
  · have hst := strip_formatTIN s h
    have h2 : (stripNonDigits (formatTIN s)).length = 9 := by rw [hst]; exact h
    rw [formatTIN_of_len9 _ h2, hst, ← formatTIN_of_len9 s h]
  · have hfix : formatTIN s = s := by unfold formatTIN; rw [if_neg h]
    rw [hfix, hfix]

/-- `formatRoutingNumber` applied to its own output changes nothing. -/
lemma formatRouting_idem (s : String) :
    formatRoutingNumber (formatRoutingNumber s) = formatRoutingNumber s := by
  by_cases h : (stripNonDigits s).length = 9
  · have hst := strip_formatRouting s h
    have h2 : (stripNonDigits (formatRoutingNumber s)).length = 9 := by
      rw [hst]; exact h
    rw [formatRouting_of_len9 _ h2, hst, ← formatRouting_of_len9 s h]
  · have hfix : formatRoutingNumber s = s := by
      unfold formatRoutingNumber; rw [if_neg h]
    rw [hfix, hfix]

/-- C10: both formatters are idempotent on every string — re-formatting a
formatted value changes nothing, whether or not the input held exactly nine
digits. -/
theorem C10_formatters_idempotent :
    ∀ s : String, formatTIN (formatTIN s) = formatTIN s ∧
      formatRoutingNumber (formatRoutingNumber s) = formatRoutingNumber s :=
  fun s => ⟨formatTIN_idem s, formatRouting_idem s⟩
